import Mathlib

/-!
Verification development for the scisquad squad-management alerting core.

The definitions below are a shallow embedding of the Python sources:
`scisquad/recommendations/alerts.py` (player- and position-level alert
engines), `scisquad/model/recommendations.py` and `scisquad/model/entities.py`
(value records and taxonomy), and `scisquad/insights/squad.py` (transfer and
performance insight aggregators).  Dates are day numbers (integers) except
where calendar year/month arithmetic is performed; pandas `NaN`/`NaT` cells
are `Option.none`; pandas comparisons against `NaN`/`NaT` are `false`, which
the `opt*` helpers reproduce.
-/

/-- Alert priority levels, from `model/recommendations.py` `AlertPriority`. -/
inductive AlertPriority
  | LOW
  | MEDIUM
  | HIGH
  | CRITICAL
deriving DecidableEq

/-- Alert types, from `model/recommendations.py` `AlertType`. -/
inductive AlertType
  | PAST_PEAK_AGE
  | CONTRACT_ENDING
  | LOAN_ENDING
  | WEAK_SPOT_STARTER
  | WEAK_SPOT_BACK_UP
  | WEAK_SPOT_SECONDARY
  | LACK_OF_DEPTH
  | CONTRACT_OR_LOAN_EXPIRED
deriving DecidableEq

/-- Position encodings, from `model/entities.py` `Position`. -/
inductive Position
  | UNKNOWN
  | NOT_APPLICABLE
  | GOALKEEPER
  | LEFT_BACK
  | RIGHT_BACK
  | CENTRE_BACK
  | DEFENSIVE_MIDFIELDER
  | CENTRE_MIDFIELDER
  | ATTACKING_MIDFIELDER
  | LEFT_WING
  | RIGHT_WING
  | CENTRE_FORWARD
  | OTHER
deriving DecidableEq

/-- Squad alert record, from `model/recommendations.py` `Alert`. -/
structure Alert where
  alert_type : AlertType
  position : Position
  alert_priority : AlertPriority
  player : Option String := none
deriving DecidableEq

/-- Row of the preprocessed squad table as consumed by `PlayerAlerts`
(`recommendations/alerts.py`): the columns read by `_move_squad_forward`,
`_set_contract_action`, `_set_loan_ending`, `_set_age_issues` and
`_set_player_alerts`.  `usage` is `none` when the left join in
`_preprocess_squad` produced null minutes (pandas `NaN`). -/
structure PlayerRow where
  name : String
  first_position : String
  usage : Option ℚ
  on_loan : Bool
  contract_end : Option ℤ
  loan_end : Option ℤ
  birth_date : ℤ
deriving DecidableEq

/-- Pandas comparison `col < x` where the cell may be `NaT`: null compares false. -/
def optLt (d : Option ℤ) (x : ℤ) : Bool :=
  match d with
  | some v => v < x
  | none => false

/-- Pandas comparison `col <= x` where the cell may be `NaT`: null compares false. -/
def optLe (d : Option ℤ) (x : ℤ) : Bool :=
  match d with
  | some v => v ≤ x
  | none => false

/-- Position-string mapping of `PlayerAlerts._map_group`.  Note the key
`"CentreMidfield"` (not `"CentralMidfield"`); unknown strings map to `OTHER`. -/
def PlayerAlerts.mapGroup (group : String) : Position :=
  if group = "Goalkeeper" then .GOALKEEPER
  else if group = "CentreBack" then .CENTRE_BACK
  else if group = "LeftBack" then .LEFT_BACK
  else if group = "RightBack" then .RIGHT_BACK
  else if group = "DefensiveMidfield" then .DEFENSIVE_MIDFIELDER
  else if group = "CentreMidfield" then .CENTRE_MIDFIELDER
  else if group = "AttackingMidfield" then .ATTACKING_MIDFIELDER
  else if group = "RightWing" then .RIGHT_WING
  else if group = "LeftWing" then .LEFT_WING
  else if group = "CentreForward" then .CENTRE_FORWARD
  else .OTHER

/-- Priority rule of `PlayerAlerts._get_player_priority`.  A null usage (pandas
`NaN`) fails every comparison and falls through to `LOW`, exactly as the
chained Python comparisons do on `NaN`. -/
def getPlayerPriority (usage : Option ℚ) : AlertPriority :=
  match usage with
  | some u =>
      if u > 75 then .CRITICAL
      else if 50 < u ∧ u ≤ 75 then .HIGH
      else if 25 < u ∧ u ≤ 50 then .MEDIUM
      else .LOW
  | none => .LOW

/-- The `_preprocess_squad` step
`squad.loc[squad[on_loan], contract_end] = squad[loan_end]`. -/
def overwriteContractEnd (p : PlayerRow) : PlayerRow :=
  if p.on_loan then { p with contract_end := p.loan_end } else p

/-- Operative expiry date per the spec glossary: `loan_end` if `on_loan`,
else `contract_end`. -/
def operativeExpiry (p : PlayerRow) : Option ℤ :=
  if p.on_loan then p.loan_end else p.contract_end

/-- Exclusion predicate of `_move_squad_forward`:
`(contract_end < run_date ∧ ¬on_loan) ∨ (loan_end < run_date ∧ on_loan)`. -/
def excludePred (runDate : ℤ) (p : PlayerRow) : Bool :=
  (optLt p.contract_end runDate && !p.on_loan) || (optLt p.loan_end runDate && p.on_loan)

/-- The `CONTRACT_OR_LOAN_EXPIRED` alert appended by `_move_squad_forward`
for an excluded player. -/
def expiredAlert (p : PlayerRow) : Alert :=
  { alert_type := .CONTRACT_OR_LOAN_EXPIRED
    alert_priority := getPlayerPriority p.usage
    position := PlayerAlerts.mapGroup p.first_position
    player := some p.name }

/-- Flag of `_set_contract_action`:
`contract_end <= run_date + contract_delta ∧ ¬on_loan`. -/
def contractEndsAlert (runDate contractDelta : ℤ) (p : PlayerRow) : Bool :=
  optLe p.contract_end (runDate + contractDelta) && !p.on_loan

/-- Flag of `_set_loan_ending`: `loan_end <= run_date + loan_delta ∧ on_loan`. -/
def loanEndsAlert (runDate loanDelta : ℤ) (p : PlayerRow) : Bool :=
  optLe p.loan_end (runDate + loanDelta) && p.on_loan

/-- Flag of `_set_age_issues` with `age` as computed by `_move_squad_forward`:
`(run_date − birth_date).days / 365.25 > peak_age_limit`. -/
def ageAlert (runDate : ℤ) (peakAgeLimit : ℚ) (p : PlayerRow) : Bool :=
  ((runDate - p.birth_date : ℚ) / (1461 / 4)) > peakAgeLimit

/-- Alert-type list of `_get_player_alert_type`, in append order. -/
def playerAlertTypes (contractFlag loanFlag ageFlag : Bool) : List AlertType :=
  (if contractFlag then [AlertType.CONTRACT_ENDING] else []) ++
  (if loanFlag then [AlertType.LOAN_ENDING] else []) ++
  (if ageFlag then [AlertType.PAST_PEAK_AGE] else [])

/-- Alerts appended by `_set_player_alerts` for one (non-excluded) player. -/
def setPlayerAlerts (runDate contractDelta loanDelta : ℤ) (peakAgeLimit : ℚ)
    (p : PlayerRow) : List Alert :=
  (playerAlertTypes (contractEndsAlert runDate contractDelta p)
      (loanEndsAlert runDate loanDelta p) (ageAlert runDate peakAgeLimit p)).map
    (fun t =>
      { alert_type := t
        alert_priority := getPlayerPriority p.usage
        position := PlayerAlerts.mapGroup p.first_position
        player := some p.name })

/-- The per-player loop of `PlayerAlerts.set_alerts`. -/
def setAllPlayerAlerts (runDate contractDelta loanDelta : ℤ) (peakAgeLimit : ℚ) :
    List PlayerRow → List Alert
  | [] => []
  | p :: rest =>
      setPlayerAlerts runDate contractDelta loanDelta peakAgeLimit p ++
      setAllPlayerAlerts runDate contractDelta loanDelta peakAgeLimit rest

/-- The whole player-level run: the `_preprocess_squad` contract-end overwrite,
`_move_squad_forward` (expired alerts first, excluded rows dropped), then
`set_alerts` over the remaining squad. -/
def runPlayerAlerts (runDate contractDelta loanDelta : ℤ) (peakAgeLimit : ℚ)
    (squad : List PlayerRow) : List Alert :=
  let squad' := squad.map overwriteContractEnd
  ((squad'.filter (excludePred runDate)).map expiredAlert) ++
    setAllPlayerAlerts runDate contractDelta loanDelta peakAgeLimit
      (squad'.filter (fun p => !excludePred runDate p))

/-- Banker's rounding to an integer, as Python's builtin `round` uses
(round-half-to-even). -/
def roundHalfEven (q : ℚ) : ℤ :=
  let f := ⌊q⌋
  let r := q - f
  if r < 1 / 2 then f
  else if 1 / 2 < r then f + 1
  else if f % 2 = 0 then f else f + 1

/-- Python `round(x, 1)` on an exact value. -/
def pyRound1 (q : ℚ) : ℚ :=
  (roundHalfEven (q * 10) : ℚ) / 10

/-- Match-participation fact, one row of `match_team_players`
(`model/entities.py` `_set_match_team_players`). -/
structure MatchPlayerFact where
  match_id : ℕ
  player_id : ℕ
  minutes_played : ℚ
deriving DecidableEq

/-- Roster entry as far as the usage computation reads it. -/
structure RosterPlayer where
  player_id : ℕ
  name : String
deriving DecidableEq

/-- The `groupby("player_id").agg(total_minutes=...)` aggregate followed by the
left join of `_preprocess_squad`: a player with no participation fact gets a
null (pandas `NaN`) total, not 0. -/
def totalMinutes (facts : List MatchPlayerFact) (pid : ℕ) : Option ℚ :=
  let mine := facts.filter (fun f => f.player_id == pid)
  if mine.isEmpty then none
  else some ((mine.map MatchPlayerFact.minutes_played).sum)

/-- Row of `match_team_attributes` as read by the usage denominator. -/
structure MatchDurationRow where
  match_id : ℕ
  match_duration : ℚ
deriving DecidableEq

/-- The denominator `matches['match_duration'].sum()` of `_preprocess_squad`. -/
def availableMinutes (matchList : List MatchDurationRow) : ℚ :=
  (matchList.map MatchDurationRow.match_duration).sum

/-- The `usage` column of `_preprocess_squad`:
`round(total_minutes / available_minutes * 100, 1)`.  Null total minutes
propagates to a null usage (pandas `NaN` arithmetic). -/
def usageOf (facts : List MatchPlayerFact) (matchList : List MatchDurationRow)
    (pid : ℕ) : Option ℚ :=
  (totalMinutes facts pid).map (fun m => pyRound1 (m / availableMinutes matchList * 100))

/-- The squad table after the left join and usage computation of
`_preprocess_squad` (before sorting, which only permutes rows): every roster
player is retained, paired with their usage cell. -/
def mergeUsage (squad : List RosterPlayer) (facts : List MatchPlayerFact)
    (matchList : List MatchDurationRow) : List (RosterPlayer × Option ℚ) :=
  squad.map (fun p => (p, usageOf facts matchList p.player_id))

/-- Calendar date reduced to the components the months-left arithmetic reads. -/
structure CalDate where
  year : ℤ
  month : ℤ
deriving DecidableEq

/-- The `months_left` lambda of `_preprocess_squad`:
`(now.year - x.year) * 12 + now.month - x.month`. -/
def monthsLeftCode (now x : CalDate) : ℤ :=
  (now.year - x.year) * 12 + (now.month - x.month)

/-- Modelled from the spec: whole months remaining from the as-of date to the
expiry date, `(expiry.year - asof.year) * 12 + (expiry.month - asof.month)`
(refinement target for the months-left claim; the source lambda is
`monthsLeftCode`). -/
def monthsRemainingSpec (asof x : CalDate) : ℤ :=
  (x.year - asof.year) * 12 + (x.month - asof.month)

/-- Python/pandas floor division `x // 1000 * 1000` (floor semantics, so
`Int.fdiv`). -/
def floorThousand (x : ℤ) : ℤ :=
  x.fdiv 1000 * 1000

/-- Squad row as read by the financial part of `_preprocess_squad`:
transfer-joined columns (`paid_fee`, `starting_market_value`) are null for
players with no matching inbound transfer. -/
structure FinRow where
  on_loan : Bool
  contract_end : Option CalDate
  loan_end : Option CalDate
  paid_fee : Option ℤ
  market_value : Option ℤ
  starting_market_value : Option ℤ
  etv_current : Option ℤ
  etv_dev : Option ℤ
deriving DecidableEq

/-- Financial columns after `_preprocess_squad`. -/
structure FinOut where
  months_left : Option ℤ
  paid_fee : ℤ
  market_value : Option ℤ
  etv_current : Option ℤ
  etv_dev : Option ℤ
  etv_revenue : ℤ
  value_added : ℤ
deriving DecidableEq

/-- The financial/tenure part of `_preprocess_squad`, per row: contract-end
overwrite for loanees, `months_left` via `monthsLeftCode` (null stays null),
`paid_fee` null-defaulted to 0 (no rounding), `etv_current`/`etv_dev`
floor-divided by 1000 (null propagates), `etv_revenue` and `value_added` only
assigned for non-loan rows (pandas `.loc` mask leaves the rest null),
`etv_revenue` floor-divided then null-defaulted to 0, `value_added`
null-defaulted to 0 (no rounding), and `market_value` untouched. -/
def preprocessFin (now : CalDate) (p : FinRow) : FinOut :=
  let contractEnd := if p.on_loan then p.loan_end else p.contract_end
  let paidFee := p.paid_fee.getD 0
  let etvCurrent := p.etv_current.map floorThousand
  let etvDev := p.etv_dev.map floorThousand
  let etvRevenue : Option ℤ :=
    if p.on_loan then none else etvCurrent.map (fun v => v - paidFee)
  let valueAdded : Option ℤ :=
    if p.on_loan then none
    else Option.map₂ (fun a b => a - b) p.market_value p.starting_market_value
  { months_left := contractEnd.map (monthsLeftCode now)
    paid_fee := paidFee
    market_value := p.market_value
    etv_current := etvCurrent
    etv_dev := etvDev
    etv_revenue := (etvRevenue.map floorThousand).getD 0
    value_added := valueAdded.getD 0 }

/-- Squad row as read by `PositionAlerts`: ranked positions, SciSkill and
potential. -/
structure SquadPlayer where
  player_id : ℕ
  first_position : String
  second_position : String
  third_position : String
  sciskill : ℚ
  potential : ℚ
deriving DecidableEq

/-- Position-string mapping of `PositionAlerts._map_group` (forward direction).
Note the key `"CentralMidfield"`, unlike the `PlayerAlerts` mapping. -/
def PositionAlerts.mapGroup (group : String) : Position :=
  if group = "Goalkeeper" then .GOALKEEPER
  else if group = "CentreBack" then .CENTRE_BACK
  else if group = "LeftBack" then .LEFT_BACK
  else if group = "RightBack" then .RIGHT_BACK
  else if group = "DefensiveMidfield" then .DEFENSIVE_MIDFIELDER
  else if group = "CentralMidfield" then .CENTRE_MIDFIELDER
  else if group = "AttackingMidfield" then .ATTACKING_MIDFIELDER
  else if group = "RightWing" then .RIGHT_WING
  else if group = "LeftWing" then .LEFT_WING
  else if group = "CentreForward" then .CENTRE_FORWARD
  else .OTHER

/-- Reverse direction of `PositionAlerts._map_group` (`reverse=True`):
`dict.get` with no default, so unmapped positions give `none`. -/
def PositionAlerts.mapGroupReverse (pos : Position) : Option String :=
  match pos with
  | .GOALKEEPER => some "Goalkeeper"
  | .CENTRE_BACK => some "CentreBack"
  | .LEFT_BACK => some "LeftBack"
  | .RIGHT_BACK => some "RightBack"
  | .DEFENSIVE_MIDFIELDER => some "DefensiveMidfield"
  | .CENTRE_MIDFIELDER => some "CentralMidfield"
  | .ATTACKING_MIDFIELDER => some "AttackingMidfield"
  | .RIGHT_WING => some "RightWing"
  | .LEFT_WING => some "LeftWing"
  | .CENTRE_FORWARD => some "CentreForward"
  | _ => none

/-- The ten canonical group strings iterated by
`PositionAlerts._aggregate_groups`, in source order. -/
def tenGroups : List String :=
  ["Goalkeeper", "CentreBack", "LeftBack", "RightBack", "DefensiveMidfield",
   "CentralMidfield", "AttackingMidfield", "RightWing", "LeftWing",
   "CentreForward"]

/-- Insertion step for the descending-SciSkill sort. -/
def insertDescSciskill (p : SquadPlayer) : List SquadPlayer → List SquadPlayer
  | [] => [p]
  | q :: rest =>
      if q.sciskill ≥ p.sciskill then q :: insertDescSciskill p rest
      else p :: q :: rest

/-- The `sort_values("sciskill", ascending=False)` of `_get_position_group`. -/
def sortDescSciskill : List SquadPlayer → List SquadPlayer
  | [] => []
  | p :: rest => insertDescSciskill p (sortDescSciskill rest)

/-- `PositionAlerts._get_position_group` with secondary positions included
(the default): players whose first, second or third position equals the
reverse-mapped group string, sorted descending by SciSkill. -/
def getPositionGroup (squad : List SquadPlayer) (pos : Position) : List SquadPlayer :=
  match PositionAlerts.mapGroupReverse pos with
  | none => []
  | some g =>
      sortDescSciskill (squad.filter (fun p =>
        p.first_position == g || p.second_position == g || p.third_position == g))

/-- Position benchmark record appended by `_set_position_benchmarks`. -/
structure Benchmark where
  group : Position
  starter_level : ℚ
  starter_potential : ℚ
  back_up_level : ℚ
  back_up_potential : ℚ
  secondary_back_up_level : ℚ
  secondary_back_up_potential : ℚ
deriving DecidableEq

/-- `PositionAlerts._set_position_benchmarks` on the (sorted) group table:
tier `k` (0-based) takes `iloc[k]` when the group has more than `k` players,
else both its level and potential default to 0. -/
def setPositionBenchmarks (group : Position) (df : List SquadPlayer) : Benchmark :=
  { group := group
    starter_level := ((df[0]?).map SquadPlayer.sciskill).getD 0
    starter_potential := ((df[0]?).map SquadPlayer.potential).getD 0
    back_up_level := ((df[1]?).map SquadPlayer.sciskill).getD 0
    back_up_potential := ((df[1]?).map SquadPlayer.potential).getD 0
    secondary_back_up_level := ((df[2]?).map SquadPlayer.sciskill).getD 0
    secondary_back_up_potential := ((df[2]?).map SquadPlayer.potential).getD 0 }

/-- Benchmark tiers: starter, back-up, secondary back-up. -/
inductive Tier
  | starter
  | backUp
  | secondaryBackUp
deriving DecidableEq

/-- Row of `df_groups` after `_get_set_group_kpis`: the benchmark plus the six
rank columns written by `_set_rank`. -/
structure GroupRow where
  bench : Benchmark
  starter_level_rank : ℤ
  starter_potential_rank : ℤ
  back_up_level_rank : ℤ
  back_up_potential_rank : ℤ
  secondary_back_up_level_rank : ℤ
  secondary_back_up_potential_rank : ℤ
deriving DecidableEq

/-- The `{level}_level_rank` column selected by tier. -/
def levelRank (t : Tier) (r : GroupRow) : ℤ :=
  match t with
  | .starter => r.starter_level_rank
  | .backUp => r.back_up_level_rank
  | .secondaryBackUp => r.secondary_back_up_level_rank

/-- The `{level}_potential_rank` column selected by tier. -/
def potentialRank (t : Tier) (r : GroupRow) : ℤ :=
  match t with
  | .starter => r.starter_potential_rank
  | .backUp => r.back_up_potential_rank
  | .secondaryBackUp => r.secondary_back_up_potential_rank

/-- Column maximum `df_groups[f'{level}_level_rank'].max()`. -/
def maxLevelRank (rows : List GroupRow) (t : Tier) : ℤ :=
  (rows.map (levelRank t)).foldl max 0

/-- Column maximum `df_groups[f'{level}_potential_rank'].max()`. -/
def maxPotentialRank (rows : List GroupRow) (t : Tier) : ℤ :=
  (rows.map (potentialRank t)).foldl max 0

/-- The per-row condition of `PositionAlerts._set_strength_issues`:
`level_bottom and potential_bottom`, each `rank > column_max - 3`. -/
def strengthFlag (rows : List GroupRow) (t : Tier) (r : GroupRow) : Bool :=
  (levelRank t r > maxLevelRank rows t - 3) &&
  (potentialRank t r > maxPotentialRank rows t - 3)

/-- The per-row condition of `PositionAlerts._set_depth_issues`:
any of the three level values is exactly 0. -/
def depthFlag (b : Benchmark) : Bool :=
  b.starter_level == 0 || b.back_up_level == 0 || b.secondary_back_up_level == 0

/-- Alert type of the weak-spot alert per tier
(`PositionAlerts._set_position_alerts`). -/
def weakAlertType (t : Tier) : AlertType :=
  match t with
  | .starter => .WEAK_SPOT_STARTER
  | .backUp => .WEAK_SPOT_BACK_UP
  | .secondaryBackUp => .WEAK_SPOT_SECONDARY

/-- Alert priority of the weak-spot alert per tier
(`PositionAlerts._set_position_alerts`). -/
def weakAlertPriority (t : Tier) : AlertPriority :=
  match t with
  | .starter => .HIGH
  | .backUp => .MEDIUM
  | .secondaryBackUp => .LOW

/-- The `LACK_OF_DEPTH` alert of `_set_position_alerts`. -/
def depthAlertOf (r : GroupRow) : Alert :=
  { alert_type := .LACK_OF_DEPTH
    position := r.bench.group
    alert_priority := .MEDIUM
    player := none }

/-- The weak-spot alert of `_set_position_alerts` for a tier. -/
def weakAlertOf (t : Tier) (r : GroupRow) : Alert :=
  { alert_type := weakAlertType t
    position := r.bench.group
    alert_priority := weakAlertPriority t
    player := none }

/-- Alerts appended by `PositionAlerts._set_position_alerts` for one group row,
with the flags as computed by `_set_depth_issues` and `_set_strength_issues`
over the whole table, in source append order. -/
def groupAlerts (rows : List GroupRow) (r : GroupRow) : List Alert :=
  (if depthFlag r.bench then [depthAlertOf r] else []) ++
  (if strengthFlag rows .starter r then [weakAlertOf .starter r] else []) ++
  (if strengthFlag rows .backUp r then [weakAlertOf .backUp r] else []) ++
  (if strengthFlag rows .secondaryBackUp r then [weakAlertOf .secondaryBackUp r] else [])

/-- Transfer record as read by `SquadTransferInsights`
(`insights/squad.py`). -/
structure TransferRec where
  player_id : ℕ
  to_team_id : ℕ
  fee : Option ℤ
  market_value : Option ℤ
  is_loan : Option Bool
  is_end_loan : Option Bool
  transfer_date : ℤ
deriving DecidableEq

/-- The `SquadTransferInsights` inbound sample: `_preprocess` drops loan-return
rows (flags null-defaulted to `False`) and `analyze_inbound` keeps incoming
rows; the date sort only permutes rows and does not change counts. -/
def inboundSample (teamId : ℕ) (transfers : List TransferRec) : List TransferRec :=
  (transfers.filter (fun t => !(t.is_end_loan.getD false))).filter
    (fun t => t.to_team_id == teamId)

/-- The `percentage_free` entry of `analyze_inbound`:
`len(loans_excluded[fee == 0]) / len(loans_excluded)` — a Python integer
division that raises `ZeroDivisionError` when `loans_excluded` is empty. -/
def percentageFree (loansExcluded : List TransferRec) : Except String ℚ :=
  if loansExcluded.length = 0 then Except.error "ZeroDivisionError"
  else
    Except.ok
      (((loansExcluded.filter (fun t => t.fee.getD 0 == 0)).length : ℚ) /
        (loansExcluded.length : ℚ))

/-- The `percentage_free` computation of `SquadTransferInsights.analyze_inbound`
end to end: inbound sample, loans excluded, then the unguarded ratio. -/
def analyzeInboundFree (teamId : ℕ) (transfers : List TransferRec) : Except String ℚ :=
  percentageFree ((inboundSample teamId transfers).filter
    (fun t => !(t.is_loan.getD false)))

/-- Player line of a match sheet (`model/entities.py`). -/
structure SheetPlayer where
  player_id : ℕ
  minutes_played : ℤ
deriving DecidableEq

/-- One side of a match sheet: team id, goals and player lines. -/
structure SheetSide where
  team_id : ℕ
  goals : ℤ
  players : List SheetPlayer
deriving DecidableEq

/-- Match sheet as read by `SciSportsTeam._set_match_team_attributes`. -/
structure MatchSheet where
  match_id : ℕ
  home : SheetSide
  away : SheetSide
  formation_home : String
  formation_away : String
deriving DecidableEq

/-- Derived `match_team_attributes` record. -/
structure MatchTeamAttr where
  match_id : ℕ
  formation : String
  goals_scored : ℤ
  goals_conceded : ℤ
  match_duration : ℤ
deriving DecidableEq

/-- The `match_duration` loop of `_set_match_team_attributes`: running maximum
of the team's `minutesPlayed`, starting at 0. -/
def maxMinutes (players : List SheetPlayer) : ℤ :=
  players.foldl (fun acc p => if p.minutes_played > acc then p.minutes_played else acc) 0

/-- `SciSportsTeam._set_match_team_attributes`: one record per sheet, the
team's own side selected by id; both `goals_scored` and `goals_conceded` are
read from `sheet.get(team).get("goals")` — the same field. -/
def setMatchTeamAttributes (teamId : ℕ) (sheets : List MatchSheet) : List MatchTeamAttr :=
  sheets.map (fun s =>
    let team := if s.home.team_id == teamId then s.home else s.away
    { match_id := s.match_id
      formation := if s.home.team_id == teamId then s.formation_home else s.formation_away
      goals_scored := team.goals
      goals_conceded := team.goals
      match_duration := maxMinutes team.players })

/-- The `points` column of `SquadPerformanceInsights._preprocess_matches`:
3 when `goals_scored > goals_conceded`, 1 when equal, 0 otherwise. -/
def pointsOf (m : MatchTeamAttr) : ℤ :=
  if m.goals_scored > m.goals_conceded then 3
  else if m.goals_scored = m.goals_conceded then 1
  else 0

/-- `matches_won` of `get_team_performance_insights`: rows with `points == 3`. -/
def matchesWon (ms : List MatchTeamAttr) : ℕ :=
  (ms.filter (fun m => pointsOf m == 3)).length

/-- `matches_drawn` of `get_team_performance_insights`: rows with `points == 1`. -/
def matchesDrawn (ms : List MatchTeamAttr) : ℕ :=
  (ms.filter (fun m => pointsOf m == 1)).length

/-- `matches_lost` of `get_team_performance_insights`: rows with `points == 0`. -/
def matchesLost (ms : List MatchTeamAttr) : ℕ :=
  (ms.filter (fun m => pointsOf m == 0)).length

/-- Characterization of the usage-priority rule as interval conditions. -/
theorem priorityCharacterization (u : ℚ) :
    (getPlayerPriority (some u) = .CRITICAL ↔ 75 < u) ∧
    (getPlayerPriority (some u) = .HIGH ↔ 50 < u ∧ u ≤ 75) ∧
    (getPlayerPriority (some u) = .MEDIUM ↔ 25 < u ∧ u ≤ 50) ∧
    (getPlayerPriority (some u) = .LOW ↔
      ¬(75 < u) ∧ ¬(50 < u ∧ u ≤ 75) ∧ ¬(25 < u ∧ u ≤ 50)) := by
  unfold getPlayerPriority
  by_cases h1 : u > 75
  · have h2 : ¬(50 < u ∧ u ≤ 75) := by rintro ⟨_, h⟩; linarith
    have h3 : ¬(25 < u ∧ u ≤ 50) := by rintro ⟨_, h⟩; linarith
    simp only [if_pos h1]
    exact ⟨by simp [h1], by simp [h2], by simp [h3], by simp [h1]⟩
  · by_cases h2 : 50 < u
    · have h2' : 50 < u ∧ u ≤ 75 := ⟨h2, by linarith [not_lt.mp h1]⟩
      have h3 : ¬(25 < u ∧ u ≤ 50) := by rintro ⟨_, h⟩; linarith
      simp only [if_neg h1, if_pos h2']
      exact ⟨by simp [h1], by simp [h2'], by simp [h3], by simp [h2']⟩
    · by_cases h3 : 25 < u
      · have h2' : ¬(50 < u ∧ u ≤ 75) := by rintro ⟨h, _⟩; linarith
        have h3' : 25 < u ∧ u ≤ 50 := ⟨h3, by linarith [not_lt.mp h2]⟩
        simp only [if_neg h1, if_neg h2', if_pos h3']
        exact ⟨by simp [h1], by simp [h2'], by simp [h3'], by simp [h3']⟩
      · have h2' : ¬(50 < u ∧ u ≤ 75) := by rintro ⟨h, _⟩; linarith
        have h3' : ¬(25 < u ∧ u ≤ 50) := by rintro ⟨h, _⟩; linarith
        simp only [if_neg h1, if_neg h2', if_neg h3']
        exact ⟨by simp [h1], by simp [h2'], by simp [h3'], by simp [h1, h2', h3']⟩

/-- C1: for every alert emitted by the player alert engine, the priority is
derived solely from the player's usage percentage — `CRITICAL` iff
`usage > 75`, `HIGH` iff `50 < usage ≤ 75`, `MEDIUM` iff `25 < usage ≤ 50`,
`LOW` otherwise — independent of the alert type; in particular usage exactly
75 yields `HIGH`, not `CRITICAL`. -/
theorem player_priority_usage_only (runDate contractDelta loanDelta : ℤ)
    (peakAgeLimit u : ℚ) (p : PlayerRow) (a : Alert)
    (hu : p.usage = some u)
    (ha : a ∈ setPlayerAlerts runDate contractDelta loanDelta peakAgeLimit p ∨
      a = expiredAlert p) :
    a.alert_priority = getPlayerPriority p.usage ∧
    (a.alert_priority = .CRITICAL ↔ 75 < u) ∧
    (a.alert_priority = .HIGH ↔ 50 < u ∧ u ≤ 75) ∧
    (a.alert_priority = .MEDIUM ↔ 25 < u ∧ u ≤ 50) ∧
    (a.alert_priority = .LOW ↔
      ¬(75 < u) ∧ ¬(50 < u ∧ u ≤ 75) ∧ ¬(25 < u ∧ u ≤ 50)) ∧
    getPlayerPriority (some 75) = .HIGH := by
  have hpa : a.alert_priority = getPlayerPriority p.usage := by
    rcases ha with h | h
    · simp only [setPlayerAlerts, List.mem_map] at h
      obtain ⟨t, _, rfl⟩ := h
      rfl
    · subst h; rfl
  obtain ⟨hc, hh, hm, hl⟩ := priorityCharacterization u
  rw [hu] at hpa
  refine ⟨by rw [hu]; exact hpa, ?_, ?_, ?_, ?_, by norm_num [getPlayerPriority]⟩
  · rw [hpa]; exact hc
  · rw [hpa]; exact hh
  · rw [hpa]; exact hm
  · rw [hpa]; exact hl

/-- Witness for C1 at a concrete player with usage 80 and an emitted
expired-contract alert. -/
theorem player_priority_usage_only_witness :
    ((⟨"A", "LeftBack", some 80, false, some 100, none, 0⟩ : PlayerRow).usage =
        some 80 ∧
      (expiredAlert ⟨"A", "LeftBack", some 80, false, some 100, none, 0⟩ ∈
          setPlayerAlerts 0 0 0 0 ⟨"A", "LeftBack", some 80, false, some 100, none, 0⟩ ∨
        expiredAlert ⟨"A", "LeftBack", some 80, false, some 100, none, 0⟩ =
          expiredAlert ⟨"A", "LeftBack", some 80, false, some 100, none, 0⟩)) ∧
    ((expiredAlert ⟨"A", "LeftBack", some 80, false, some 100, none, 0⟩).alert_priority =
        getPlayerPriority (⟨"A", "LeftBack", some 80, false, some 100, none, 0⟩ : PlayerRow).usage ∧
      ((expiredAlert ⟨"A", "LeftBack", some 80, false, some 100, none, 0⟩).alert_priority = .CRITICAL ↔ 75 < (80 : ℚ)) ∧
      ((expiredAlert ⟨"A", "LeftBack", some 80, false, some 100, none, 0⟩).alert_priority = .HIGH ↔ 50 < (80 : ℚ) ∧ (80 : ℚ) ≤ 75) ∧
      ((expiredAlert ⟨"A", "LeftBack", some 80, false, some 100, none, 0⟩).alert_priority = .MEDIUM ↔ 25 < (80 : ℚ) ∧ (80 : ℚ) ≤ 50) ∧
      ((expiredAlert ⟨"A", "LeftBack", some 80, false, some 100, none, 0⟩).alert_priority = .LOW ↔
        ¬(75 < (80 : ℚ)) ∧ ¬(50 < (80 : ℚ) ∧ (80 : ℚ) ≤ 75) ∧ ¬(25 < (80 : ℚ) ∧ (80 : ℚ) ≤ 50)) ∧
      getPlayerPriority (some 75) = .HIGH) :=
  ⟨⟨rfl, Or.inr rfl⟩,
    player_priority_usage_only 0 0 0 0 80
      ⟨"A", "LeftBack", some 80, false, some 100, none, 0⟩
      (expiredAlert ⟨"A", "LeftBack", some 80, false, some 100, none, 0⟩)
      rfl (Or.inr rfl)⟩

/-- C9: every `match_team_attributes` record sets `goals_conceded` from the
same sheet field as `goals_scored`, so they are always equal; consequently the
performance insights assign 1 point (a draw) to every match and report zero
wins and zero losses on every input. -/
theorem goals_conceded_equals_scored (teamId : ℕ) (sheets : List MatchSheet) :
    (∀ m ∈ setMatchTeamAttributes teamId sheets,
      m.goals_conceded = m.goals_scored ∧ pointsOf m = 1) ∧
    matchesWon (setMatchTeamAttributes teamId sheets) = 0 ∧
    matchesLost (setMatchTeamAttributes teamId sheets) = 0 ∧
    matchesDrawn (setMatchTeamAttributes teamId sheets) =
      (setMatchTeamAttributes teamId sheets).length := by
  have key : ∀ m ∈ setMatchTeamAttributes teamId sheets, pointsOf m = 1 := by
    intro m hm
    simp only [setMatchTeamAttributes, List.mem_map] at hm
    obtain ⟨s, _, rfl⟩ := hm
    simp [pointsOf]
  refine ⟨?_, ?_, ?_, ?_⟩
  · intro m hm
    refine ⟨?_, key m hm⟩
    simp only [setMatchTeamAttributes, List.mem_map] at hm
    obtain ⟨s, _, rfl⟩ := hm
    rfl
  · unfold matchesWon
    rw [List.length_eq_zero, List.filter_eq_nil_iff]
    intro m hm
    simp [key m hm]
  · unfold matchesLost
    rw [List.length_eq_zero, List.filter_eq_nil_iff]
    intro m hm
    simp [key m hm]
  · unfold matchesDrawn
    congr 1
    rw [List.filter_eq_self]
    intro m hm
    simp [key m hm]

/-- Witness for C9 at a concrete one-sheet input (home team 10, 2 goals). -/
theorem goals_conceded_equals_scored_witness :
    (∀ m ∈ setMatchTeamAttributes 10
        [⟨1, ⟨10, 2, [⟨5, 90⟩]⟩, ⟨11, 3, [⟨6, 90⟩]⟩, "433", "442"⟩],
      m.goals_conceded = m.goals_scored ∧ pointsOf m = 1) ∧
    matchesWon (setMatchTeamAttributes 10
      [⟨1, ⟨10, 2, [⟨5, 90⟩]⟩, ⟨11, 3, [⟨6, 90⟩]⟩, "433", "442"⟩]) = 0 ∧
    matchesLost (setMatchTeamAttributes 10
      [⟨1, ⟨10, 2, [⟨5, 90⟩]⟩, ⟨11, 3, [⟨6, 90⟩]⟩, "433", "442"⟩]) = 0 ∧
    matchesDrawn (setMatchTeamAttributes 10
      [⟨1, ⟨10, 2, [⟨5, 90⟩]⟩, ⟨11, 3, [⟨6, 90⟩]⟩, "433", "442"⟩]) =
      (setMatchTeamAttributes 10
        [⟨1, ⟨10, 2, [⟨5, 90⟩]⟩, ⟨11, 3, [⟨6, 90⟩]⟩, "433", "442"⟩]).length :=
  goals_conceded_equals_scored 10
    [⟨1, ⟨10, 2, [⟨5, 90⟩]⟩, ⟨11, 3, [⟨6, 90⟩]⟩, "433", "442"⟩]

/-- C10: the two engines disagree on the centre-midfield string: the position
engine maps and iterates `"CentralMidfield"`, while the player engine's map
only knows `"CentreMidfield"`, so every player-level alert for a player whose
first position is `"CentralMidfield"` is tagged `OTHER`. -/
theorem central_midfield_taxonomy_mismatch (runDate contractDelta loanDelta : ℤ)
    (peakAgeLimit : ℚ) (p : PlayerRow) (a : Alert)
    (hp : p.first_position = "CentralMidfield")
    (ha : a ∈ setPlayerAlerts runDate contractDelta loanDelta peakAgeLimit p ∨
      a = expiredAlert p) :
    a.position = .OTHER ∧
    PlayerAlerts.mapGroup "CentralMidfield" = .OTHER ∧
    PlayerAlerts.mapGroup "CentreMidfield" = .CENTRE_MIDFIELDER ∧
    PositionAlerts.mapGroup "CentralMidfield" = .CENTRE_MIDFIELDER ∧
    "CentralMidfield" ∈ tenGroups ∧
    PositionAlerts.mapGroupReverse .CENTRE_MIDFIELDER = some "CentralMidfield" := by
  have hpos : a.position = PlayerAlerts.mapGroup p.first_position := by
    rcases ha with h | h
    · simp only [setPlayerAlerts, List.mem_map] at h
      obtain ⟨t, _, rfl⟩ := h
      rfl
    · subst h; rfl
  refine ⟨?_, by decide, by decide, by decide, by decide, by decide⟩
  rw [hpos, hp]
  decide

/-- Witness for C10 at a concrete centrally-midfielding player. -/
theorem central_midfield_taxonomy_mismatch_witness :
    ((⟨"B", "CentralMidfield", some 10, false, some 100, none, 0⟩ : PlayerRow).first_position =
        "CentralMidfield" ∧
      (expiredAlert ⟨"B", "CentralMidfield", some 10, false, some 100, none, 0⟩ ∈
          setPlayerAlerts 0 0 0 0 ⟨"B", "CentralMidfield", some 10, false, some 100, none, 0⟩ ∨
        expiredAlert ⟨"B", "CentralMidfield", some 10, false, some 100, none, 0⟩ =
          expiredAlert ⟨"B", "CentralMidfield", some 10, false, some 100, none, 0⟩)) ∧
    ((expiredAlert ⟨"B", "CentralMidfield", some 10, false, some 100, none, 0⟩).position = .OTHER ∧
      PlayerAlerts.mapGroup "CentralMidfield" = .OTHER ∧
      PlayerAlerts.mapGroup "CentreMidfield" = .CENTRE_MIDFIELDER ∧
      PositionAlerts.mapGroup "CentralMidfield" = .CENTRE_MIDFIELDER ∧
      "CentralMidfield" ∈ tenGroups ∧
      PositionAlerts.mapGroupReverse .CENTRE_MIDFIELDER = some "CentralMidfield") :=
  ⟨⟨rfl, Or.inr rfl⟩,
    central_midfield_taxonomy_mismatch 0 0 0 0
      ⟨"B", "CentralMidfield", some 10, false, some 100, none, 0⟩
      (expiredAlert ⟨"B", "CentralMidfield", some 10, false, some 100, none, 0⟩)
      rfl (Or.inr rfl)⟩

/-- Floor-rounding to the nearest thousand: characterizing bounds. -/
theorem floorThousand_bounds (v : ℤ) :
    1000 ∣ floorThousand v ∧ floorThousand v ≤ v ∧ v < floorThousand v + 1000 := by
  unfold floorThousand
  rw [Int.fdiv_eq_ediv v (by norm_num)]
  have h := Int.ediv_add_emod v 1000
  have h1 := Int.emod_nonneg v (by norm_num : (1000 : ℤ) ≠ 0)
  have h2 := Int.emod_lt_of_pos v (by norm_num : (0 : ℤ) < 1000)
  have e : v / 1000 * 1000 = 1000 * (v / 1000) := by ring
  exact ⟨⟨v / 1000, by ring⟩, by linarith, by linarith⟩

/-- C5 counterexample: a roster player (id 2) appearing in no
match-participation fact is retained by the usage aggregator, but with a null
usage cell, not usage 0 as the claim states. -/
theorem absent_player_usage_not_zero :
    usageOf [⟨1, 1, 90⟩] [⟨1, 90⟩] 2 = none ∧
    (none : Option ℚ) ≠ some 0 ∧
    ((⟨2, "B"⟩ : RosterPlayer), (none : Option ℚ)) ∈
      mergeUsage [⟨1, "A"⟩, ⟨2, "B"⟩] [⟨1, 1, 90⟩] [⟨1, 90⟩] := by
  decide

/-- C5 amended: a roster player appearing in no match-participation fact is
retained by the usage aggregator with a null (missing) usage — the left join
leaves the minutes null and no zero-fill is applied — and a null usage is
classified `LOW` by the priority rule downstream. -/
theorem absent_player_retained_null_usage (squad : List RosterPlayer)
    (facts : List MatchPlayerFact) (matchList : List MatchDurationRow)
    (p : RosterPlayer)
    (hmem : p ∈ squad)
    (habsent : ∀ f ∈ facts, f.player_id ≠ p.player_id) :
    usageOf facts matchList p.player_id = none ∧
    (p, (none : Option ℚ)) ∈ mergeUsage squad facts matchList ∧
    getPlayerPriority (usageOf facts matchList p.player_id) = .LOW := by
  have hfilter : facts.filter (fun f => f.player_id == p.player_id) = [] := by
    rw [List.filter_eq_nil_iff]
    intro f hf
    simpa using habsent f hf
  have husage : usageOf facts matchList p.player_id = none := by
    unfold usageOf totalMinutes
    rw [hfilter]
    rfl
  refine ⟨husage, ?_, by rw [husage]; rfl⟩
  unfold mergeUsage
  exact List.mem_map.mpr ⟨p, hmem, by rw [husage]⟩

/-- Witness for the amended C5 at the concrete two-player roster. -/
theorem absent_player_retained_null_usage_witness :
    ((⟨2, "B"⟩ : RosterPlayer) ∈ ([⟨1, "A"⟩, ⟨2, "B"⟩] : List RosterPlayer) ∧
      (∀ f ∈ ([⟨1, 1, 90⟩] : List MatchPlayerFact),
        f.player_id ≠ (⟨2, "B"⟩ : RosterPlayer).player_id)) ∧
    (usageOf [⟨1, 1, 90⟩] [⟨1, 90⟩] (⟨2, "B"⟩ : RosterPlayer).player_id = none ∧
      ((⟨2, "B"⟩ : RosterPlayer), (none : Option ℚ)) ∈
        mergeUsage [⟨1, "A"⟩, ⟨2, "B"⟩] [⟨1, 1, 90⟩] [⟨1, 90⟩] ∧
      getPlayerPriority
        (usageOf [⟨1, 1, 90⟩] [⟨1, 90⟩] (⟨2, "B"⟩ : RosterPlayer).player_id) = .LOW) :=
  ⟨⟨by decide, by decide⟩,
    absent_player_retained_null_usage [⟨1, "A"⟩, ⟨2, "B"⟩] [⟨1, 1, 90⟩] [⟨1, 90⟩]
      ⟨2, "B"⟩ (by decide) (by decide)⟩

/-- C6: the months-left lambda computes as-of minus expiry, the negation of
the months remaining the spec describes: with as-of 2026-10 and a contract
ending 2027-04 (not on loan) the code stores −6 while 6 whole months remain;
the null-expiry case does yield null, and loanees do use `loan_end`. -/
theorem months_left_sign_flipped :
    (preprocessFin ⟨2026, 10⟩
      ⟨false, some ⟨2027, 4⟩, none, none, none, none, none, none⟩).months_left =
        some (-6) ∧
    monthsRemainingSpec ⟨2026, 10⟩ ⟨2027, 4⟩ = 6 ∧
    ((-6 : ℤ) ≠ 6) ∧
    (∀ a b : CalDate, monthsLeftCode a b = -monthsRemainingSpec a b) ∧
    (preprocessFin ⟨2026, 10⟩
      ⟨true, some ⟨2030, 1⟩, some ⟨2027, 4⟩, none, none, none, none, none⟩).months_left =
        some (-6) ∧
    (preprocessFin ⟨2026, 10⟩
      ⟨false, none, some ⟨2027, 4⟩, none, none, none, none, none⟩).months_left = none := by
  refine ⟨by decide, by decide, by decide, ?_, by decide, by decide⟩
  intro a b
  unfold monthsLeftCode monthsRemainingSpec
  ring

/-- C7 counterexample: `paid_fee` (1500) and `value_added` (3700 − 1200 =
2500) are not floor-rounded to the nearest thousand, and a missing
`etv_current` stays null instead of defaulting to 0, contradicting the claim
that every monetary figure is floor-rounded and every missing monetary value
defaults to 0. -/
theorem paid_fee_not_floor_rounded :
    (preprocessFin ⟨2026, 10⟩
      ⟨false, none, none, some 1500, some 3700, some 1200, some 5555,
        some (-1500)⟩).paid_fee = 1500 ∧
    floorThousand 1500 = 1000 ∧
    ((1500 : ℤ) ≠ 1000) ∧
    (preprocessFin ⟨2026, 10⟩
      ⟨false, none, none, some 1500, some 3700, some 1200, some 5555,
        some (-1500)⟩).value_added = 2500 ∧
    floorThousand 2500 = 2000 ∧
    ((2500 : ℤ) ≠ 2000) ∧
    (preprocessFin ⟨2026, 10⟩
      ⟨false, none, none, none, none, none, none, none⟩).etv_current = none ∧
    ((none : Option ℤ) ≠ some 0) := by
  decide

/-- C7 amended: the normalizer floor-rounds `etv_current`, `etv_dev` and
`etv_revenue` down to the nearest thousand (missing `etv_current`/`etv_dev`
stay null); `paid_fee` and `value_added` are only null-defaulted to 0, never
rounded, with `value_added = market_value − starting_market_value` on
non-loan rows; `market_value` itself is untouched. -/
theorem monetary_rounding_amended (now : CalDate) (p : FinRow) :
    (∀ v, p.etv_current = some v →
      (preprocessFin now p).etv_current = some (floorThousand v) ∧
      1000 ∣ floorThousand v ∧ floorThousand v ≤ v ∧ v < floorThousand v + 1000) ∧
    (∀ v, p.etv_dev = some v →
      (preprocessFin now p).etv_dev = some (floorThousand v) ∧
      1000 ∣ floorThousand v ∧ floorThousand v ≤ v ∧ v < floorThousand v + 1000) ∧
    (1000 ∣ (preprocessFin now p).etv_revenue) ∧
    ((preprocessFin now p).paid_fee = p.paid_fee.getD 0) ∧
    ((preprocessFin now p).market_value = p.market_value) ∧
    (p.etv_current = none → (preprocessFin now p).etv_current = none) ∧
    (p.etv_dev = none → (preprocessFin now p).etv_dev = none) ∧
    (p.on_loan = true → (preprocessFin now p).value_added = 0) ∧
    (∀ a b, p.on_loan = false → p.market_value = some a →
      p.starting_market_value = some b →
      (preprocessFin now p).value_added = a - b) := by
  refine ⟨?_, ?_, ?_, rfl, rfl, ?_, ?_, ?_, ?_⟩
  · intro v hv
    refine ⟨?_, floorThousand_bounds v⟩
    show (p.etv_current.map floorThousand) = some (floorThousand v)
    rw [hv]; rfl
  · intro v hv
    refine ⟨?_, floorThousand_bounds v⟩
    show (p.etv_dev.map floorThousand) = some (floorThousand v)
    rw [hv]; rfl
  · unfold preprocessFin
    cases hl : p.on_loan
    · cases hc : p.etv_current
      · simp [hl, hc]
      · simp only [hl, hc, Bool.false_eq_true, if_false, Option.map_some']
        exact (floorThousand_bounds _).1
    · simp [hl]
  · intro hv
    show (p.etv_current.map floorThousand) = none
    rw [hv]; rfl
  · intro hv
    show (p.etv_dev.map floorThousand) = none
    rw [hv]; rfl
  · intro hl
    unfold preprocessFin
    simp [hl]
  · intro a b hl ha hb
    unfold preprocessFin
    simp [hl, ha, hb]

/-- Witness for the amended C7 at a concrete non-loan row. -/
theorem monetary_rounding_amended_witness :
    (preprocessFin ⟨2026, 10⟩
      ⟨false, none, none, some 1500, some 3700, some 1200, some 5555,
        some (-1500)⟩).etv_current = some 5000 ∧
    (preprocessFin ⟨2026, 10⟩
      ⟨false, none, none, some 1500, some 3700, some 1200, some 5555,
        some (-1500)⟩).etv_dev = some (-2000) ∧
    1000 ∣ (preprocessFin ⟨2026, 10⟩
      ⟨false, none, none, some 1500, some 3700, some 1200, some 5555,
        some (-1500)⟩).etv_revenue ∧
    (preprocessFin ⟨2026, 10⟩
      ⟨false, none, none, some 1500, some 3700, some 1200, some 5555,
        some (-1500)⟩).value_added = 2500 := by
  obtain ⟨h1, h2, h3, _, _, _, _, _, h9⟩ :=
    monetary_rounding_amended ⟨2026, 10⟩
      ⟨false, none, none, some 1500, some 3700, some 1200, some 5555, some (-1500)⟩
  refine ⟨?_, ?_, h3, ?_⟩
  · rw [(h1 5555 rfl).1]; decide
  · rw [(h2 (-1500) rfl).1]; decide
  · rw [h9 3700 1200 rfl rfl rfl]; decide

/-- C8: with an empty transfer collection (or one containing only loans) the
inbound transfer-insight aggregator does not produce defined output: the
`percentage_free` ratio divides by the number of non-loan inbound transfers,
which is zero, and the run raises instead of returning 0. -/
theorem empty_transfers_division_error :
    analyzeInboundFree 1 [] = Except.error "ZeroDivisionError" ∧
    analyzeInboundFree 1 [⟨7, 1, some 0, some 0, some true, none, 5⟩] =
      Except.error "ZeroDivisionError" ∧
    analyzeInboundFree 1 [⟨7, 1, some 0, some 500, some false, none, 5⟩] =
      Except.ok 1 := by
  refine ⟨rfl, rfl, ?_⟩
  show Except.ok ((1 : ℚ) / 1) = Except.ok 1
  norm_num

/-- The depth flag holds exactly when one of the three tier levels is 0. -/
theorem depthFlag_iff (b : Benchmark) :
    depthFlag b = true ↔
      (b.starter_level = 0 ∨ b.back_up_level = 0 ∨ b.secondary_back_up_level = 0) := by
  simp [depthFlag, or_assoc]

/-- The strength flag holds exactly when both rank columns for the tier are
strictly above the column maximum minus 3. -/
theorem strengthFlag_iff (rows : List GroupRow) (t : Tier) (r : GroupRow) :
    strengthFlag rows t r = true ↔
      (maxLevelRank rows t - 3 < levelRank t r ∧
        maxPotentialRank rows t - 3 < potentialRank t r) := by
  simp [strengthFlag]

/-- C3: the position engine emits the `LACK_OF_DEPTH` alert (priority
`MEDIUM`) for a group exactly when one of the three tier skill values is 0; a
tier missing because the group has fewer than 1, 2 or 3 players defaults both
its skill and potential to 0, so a group with exactly 2 rostered players
always triggers the alert. -/
theorem lack_of_depth_iff_zero_skill (rows : List GroupRow) (r : GroupRow)
    (g : Position) (df : List SquadPlayer) :
    (depthAlertOf r ∈ groupAlerts rows r ↔
      (r.bench.starter_level = 0 ∨ r.bench.back_up_level = 0 ∨
        r.bench.secondary_back_up_level = 0)) ∧
    (depthAlertOf r).alert_type = .LACK_OF_DEPTH ∧
    (depthAlertOf r).alert_priority = .MEDIUM ∧
    (df.length = 0 →
      (setPositionBenchmarks g df).starter_level = 0 ∧
      (setPositionBenchmarks g df).starter_potential = 0) ∧
    (df.length ≤ 1 →
      (setPositionBenchmarks g df).back_up_level = 0 ∧
      (setPositionBenchmarks g df).back_up_potential = 0) ∧
    (df.length ≤ 2 →
      (setPositionBenchmarks g df).secondary_back_up_level = 0 ∧
      (setPositionBenchmarks g df).secondary_back_up_potential = 0) ∧
    (df.length = 2 → depthFlag (setPositionBenchmarks g df) = true) := by
  have hmem : depthAlertOf r ∈ groupAlerts rows r ↔ depthFlag r.bench = true := by
    unfold groupAlerts
    cases hd : depthFlag r.bench <;>
      by_cases h1 : strengthFlag rows .starter r = true <;>
      by_cases h2 : strengthFlag rows .backUp r = true <;>
      by_cases h3 : strengthFlag rows .secondaryBackUp r = true <;>
      simp [h1, h2, h3, depthAlertOf, weakAlertOf, weakAlertType, weakAlertPriority]
  have hsec : df.length ≤ 2 →
      (setPositionBenchmarks g df).secondary_back_up_level = 0 ∧
      (setPositionBenchmarks g df).secondary_back_up_potential = 0 := by
    intro h
    have h2 : df[2]? = none := List.getElem?_eq_none h
    constructor
    · show ((df[2]?).map SquadPlayer.sciskill).getD 0 = 0
      rw [h2]; rfl
    · show ((df[2]?).map SquadPlayer.potential).getD 0 = 0
      rw [h2]; rfl
  refine ⟨hmem.trans (depthFlag_iff r.bench), rfl, rfl, ?_, ?_, hsec, ?_⟩
  · intro h
    have h0 : df[0]? = none := List.getElem?_eq_none (by omega)
    constructor
    · show ((df[0]?).map SquadPlayer.sciskill).getD 0 = 0
      rw [h0]; rfl
    · show ((df[0]?).map SquadPlayer.potential).getD 0 = 0
      rw [h0]; rfl
  · intro h
    have h1 : df[1]? = none := List.getElem?_eq_none (by omega)
    constructor
    · show ((df[1]?).map SquadPlayer.sciskill).getD 0 = 0
      rw [h1]; rfl
    · show ((df[1]?).map SquadPlayer.potential).getD 0 = 0
      rw [h1]; rfl
  · intro h
    have := (hsec (by omega)).1
    rw [depthFlag_iff]
    exact Or.inr (Or.inr this)

/-- Witness for C3: a group row whose secondary back-up level is 0 receives
the depth alert, and a concrete 2-player group defaults its third tier to 0
and raises the depth flag. -/
theorem lack_of_depth_iff_zero_skill_witness :
    depthAlertOf ⟨⟨.CENTRE_BACK, 10, 10, 5, 5, 0, 0⟩, 1, 1, 1, 1, 1, 1⟩ ∈
      groupAlerts [⟨⟨.CENTRE_BACK, 10, 10, 5, 5, 0, 0⟩, 1, 1, 1, 1, 1, 1⟩]
        ⟨⟨.CENTRE_BACK, 10, 10, 5, 5, 0, 0⟩, 1, 1, 1, 1, 1, 1⟩ ∧
    depthFlag (setPositionBenchmarks .CENTRE_BACK
      [⟨1, "CentreBack", "", "", 10, 10⟩, ⟨2, "CentreBack", "", "", 5, 5⟩]) = true ∧
    (setPositionBenchmarks .CENTRE_BACK
      [⟨1, "CentreBack", "", "", 10, 10⟩,
        ⟨2, "CentreBack", "", "", 5, 5⟩]).secondary_back_up_level = 0 := by
  obtain ⟨h1, _, _, _, _, h6, h7⟩ :=
    lack_of_depth_iff_zero_skill
      [⟨⟨.CENTRE_BACK, 10, 10, 5, 5, 0, 0⟩, 1, 1, 1, 1, 1, 1⟩]
      ⟨⟨.CENTRE_BACK, 10, 10, 5, 5, 0, 0⟩, 1, 1, 1, 1, 1, 1⟩
      .CENTRE_BACK
      [⟨1, "CentreBack", "", "", 10, 10⟩, ⟨2, "CentreBack", "", "", 5, 5⟩]
  exact ⟨h1.mpr (Or.inr (Or.inr rfl)), h7 (by decide), (h6 (by decide)).1⟩

/-- C4: for each tier independently, the weak-spot alert for a group is
emitted exactly when the group's rank in that tier's skill and in that tier's
potential are both strictly greater than the respective column maximum minus
3; the alert is `WEAK_SPOT_STARTER`/`HIGH` for the starter tier,
`WEAK_SPOT_BACK_UP`/`MEDIUM` for the back-up tier and
`WEAK_SPOT_SECONDARY`/`LOW` for the secondary-back-up tier. -/
theorem weak_spot_iff_bottom_ranks (rows : List GroupRow) (r : GroupRow) (t : Tier) :
    (weakAlertOf t r ∈ groupAlerts rows r ↔
      (maxLevelRank rows t - 3 < levelRank t r ∧
        maxPotentialRank rows t - 3 < potentialRank t r)) ∧
    (weakAlertOf .starter r).alert_type = .WEAK_SPOT_STARTER ∧
    (weakAlertOf .starter r).alert_priority = .HIGH ∧
    (weakAlertOf .backUp r).alert_type = .WEAK_SPOT_BACK_UP ∧
    (weakAlertOf .backUp r).alert_priority = .MEDIUM ∧
    (weakAlertOf .secondaryBackUp r).alert_type = .WEAK_SPOT_SECONDARY ∧
    (weakAlertOf .secondaryBackUp r).alert_priority = .LOW := by
  refine ⟨?_, rfl, rfl, rfl, rfl, rfl, rfl⟩
  rw [← strengthFlag_iff]
  unfold groupAlerts
  cases t <;>
    by_cases hd : depthFlag r.bench = true <;>
    by_cases h1 : strengthFlag rows .starter r = true <;>
    by_cases h2 : strengthFlag rows .backUp r = true <;>
    by_cases h3 : strengthFlag rows .secondaryBackUp r = true <;>
    simp [hd, h1, h2, h3, depthAlertOf, weakAlertOf, weakAlertType, weakAlertPriority]

/-- Witness for C4: in a concrete two-row table, the row ranked 10 on both
starter columns (maximum 10) receives the starter weak-spot alert. -/
theorem weak_spot_iff_bottom_ranks_witness :
    weakAlertOf .starter ⟨⟨.CENTRE_FORWARD, 1, 1, 1, 1, 1, 1⟩, 10, 10, 10, 10, 10, 10⟩ ∈
      groupAlerts
        [⟨⟨.GOALKEEPER, 50, 50, 40, 40, 30, 30⟩, 1, 1, 1, 1, 1, 1⟩,
          ⟨⟨.CENTRE_FORWARD, 1, 1, 1, 1, 1, 1⟩, 10, 10, 10, 10, 10, 10⟩]
        ⟨⟨.CENTRE_FORWARD, 1, 1, 1, 1, 1, 1⟩, 10, 10, 10, 10, 10, 10⟩ ∧
    (weakAlertOf .starter
      ⟨⟨.CENTRE_FORWARD, 1, 1, 1, 1, 1, 1⟩, 10, 10, 10, 10, 10, 10⟩).alert_type =
      .WEAK_SPOT_STARTER ∧
    (weakAlertOf .starter
      ⟨⟨.CENTRE_FORWARD, 1, 1, 1, 1, 1, 1⟩, 10, 10, 10, 10, 10, 10⟩).alert_priority =
      .HIGH := by
  obtain ⟨h1, h2, h3, _⟩ :=
    weak_spot_iff_bottom_ranks
      [⟨⟨.GOALKEEPER, 50, 50, 40, 40, 30, 30⟩, 1, 1, 1, 1, 1, 1⟩,
        ⟨⟨.CENTRE_FORWARD, 1, 1, 1, 1, 1, 1⟩, 10, 10, 10, 10, 10, 10⟩]
      ⟨⟨.CENTRE_FORWARD, 1, 1, 1, 1, 1, 1⟩, 10, 10, 10, 10, 10, 10⟩ .starter
  exact ⟨h1.mpr (by decide), h2, h3⟩

/-- The contract-end overwrite never changes a player's name. -/
theorem overwrite_name (p : PlayerRow) : (overwriteContractEnd p).name = p.name := by
  unfold overwriteContractEnd
  split <;> rfl

/-- The contract-end overwrite never changes a player's usage. -/
theorem overwrite_usage (p : PlayerRow) : (overwriteContractEnd p).usage = p.usage := by
  unfold overwriteContractEnd
  split <;> rfl

/-- An operative expiry date strictly before the run date makes the overwritten
row satisfy the `_move_squad_forward` exclusion predicate. -/
theorem exclude_of_operative (rd : ℤ) (p : PlayerRow) (d : ℤ)
    (hd : operativeExpiry p = some d) (hlt : d < rd) :
    excludePred rd (overwriteContractEnd p) = true := by
  unfold operativeExpiry at hd
  cases hl : p.on_loan
  · rw [hl] at hd
    simp only [Bool.false_eq_true, if_false] at hd
    simp [excludePred, overwriteContractEnd, optLt, hl, hd, hlt]
  · rw [hl] at hd
    simp only [if_true] at hd
    simp [excludePred, overwriteContractEnd, optLt, hl, hd, hlt]

/-- Every type produced by `_get_player_alert_type` is one of the three
per-player rule types. -/
theorem mem_playerAlertTypes (c l a : Bool) (t : AlertType)
    (ht : t ∈ playerAlertTypes c l a) :
    t = .CONTRACT_ENDING ∨ t = .LOAN_ENDING ∨ t = .PAST_PEAK_AGE := by
  unfold playerAlertTypes at ht
  cases c <;> cases l <;> cases a <;> simp_all <;> tauto

/-- Every alert of `_set_player_alerts` carries the player's name and never
the expired type. -/
theorem setPlayerAlerts_player (rd cd ld : ℤ) (peak : ℚ) (p : PlayerRow) (a : Alert)
    (ha : a ∈ setPlayerAlerts rd cd ld peak p) :
    a.player = some p.name ∧ a.alert_type ≠ .CONTRACT_OR_LOAN_EXPIRED := by
  simp only [setPlayerAlerts, List.mem_map] at ha
  obtain ⟨t, ht, rfl⟩ := ha
  refine ⟨rfl, ?_⟩
  rcases mem_playerAlertTypes _ _ _ t ht with rfl | rfl | rfl <;> simp

/-- If no player in a list bears a given name, the `set_alerts` loop emits no
alert attributed to that name. -/
theorem setAllPlayerAlerts_filter_nil (rd cd ld : ℤ) (peak : ℚ) (nm : String)
    (l : List PlayerRow) (h : ∀ q ∈ l, q.name ≠ nm) :
    (setAllPlayerAlerts rd cd ld peak l).filter (fun a => a.player == some nm) = [] := by
  induction l with
  | nil => rfl
  | cons q rest ih =>
      have hq : q.name ≠ nm := h q (List.mem_cons_self q rest)
      have hrest : ∀ x ∈ rest, x.name ≠ nm := fun x hx => h x (List.mem_cons_of_mem q hx)
      simp only [setAllPlayerAlerts, List.filter_append, ih hrest, List.append_nil]
      rw [List.filter_eq_nil_iff]
      intro a ha
      have := (setPlayerAlerts_player rd cd ld peak q a ha).1
      simp [this, hq]

/-- C2: a squad player whose operative expiry date (loan end if on loan, else
contract end) is strictly before the run date receives exactly one alert in
the whole player-level run — a `CONTRACT_OR_LOAN_EXPIRED` alert at the
usage-derived priority — and in particular no `CONTRACT_ENDING`,
`LOAN_ENDING` or `PAST_PEAK_AGE` alert. -/
theorem expired_player_single_alert (rd cd ld : ℤ) (peak : ℚ)
    (squad : List PlayerRow) (p : PlayerRow) (d : ℤ)
    (hmem : p ∈ squad)
    (huniq : (squad.filter (fun q => q.name == p.name)).length = 1)
    (hd : operativeExpiry p = some d) (hlt : d < rd) :
    (runPlayerAlerts rd cd ld peak squad).filter
        (fun a => a.player == some p.name) =
      [expiredAlert (overwriteContractEnd p)] ∧
    (expiredAlert (overwriteContractEnd p)).alert_type = .CONTRACT_OR_LOAN_EXPIRED ∧
    (expiredAlert (overwriteContractEnd p)).alert_priority =
      getPlayerPriority p.usage ∧
    (∀ a ∈ runPlayerAlerts rd cd ld peak squad,
      a.player = some p.name → a.alert_type = .CONTRACT_OR_LOAN_EXPIRED) := by
  have hsq : squad.filter (fun q => q.name == p.name) = [p] := by
    obtain ⟨x, hx⟩ := List.length_eq_one.mp huniq
    have h1 : p ∈ squad.filter (fun q => q.name == p.name) :=
      List.mem_filter.mpr ⟨hmem, by simp⟩
    rw [hx] at h1 ⊢
    simp only [List.mem_singleton] at h1
    rw [h1]
  have hP : (squad.map overwriteContractEnd).filter (fun q => q.name == p.name) =
      [overwriteContractEnd p] := by
    rw [List.filter_map]
    have hcong : ((fun q => q.name == p.name) ∘ overwriteContractEnd) =
        (fun q => q.name == p.name) := by
      funext q
      simp [Function.comp, overwrite_name]
    rw [hcong, hsq]
    rfl
  have hexcl : excludePred rd (overwriteContractEnd p) = true :=
    exclude_of_operative rd p d hd hlt
  have hexp : (((squad.map overwriteContractEnd).filter (excludePred rd)).map
      expiredAlert).filter (fun a => a.player == some p.name) =
      [expiredAlert (overwriteContractEnd p)] := by
    rw [List.filter_map]
    have hcong : ((fun a => a.player == some p.name) ∘ expiredAlert) =
        (fun q => q.name == p.name) := by
      funext q
      rfl
    rw [hcong, List.filter_filter]
    have hcomm : (fun q => (fun q => q.name == p.name) q && excludePred rd q) =
        (fun q => excludePred rd q && (fun q => q.name == p.name) q) := by
      funext q
      exact Bool.and_comm _ _
    rw [hcomm, ← List.filter_filter, hP]
    simp [hexcl]
  have hrest : ∀ q ∈ (squad.map overwriteContractEnd).filter
      (fun q => !excludePred rd q), q.name ≠ p.name := by
    intro q hq heq
    obtain ⟨hqP, hnq⟩ := List.mem_filter.mp hq
    have hqnm : q ∈ (squad.map overwriteContractEnd).filter
        (fun q => q.name == p.name) := List.mem_filter.mpr ⟨hqP, by simp [heq]⟩
    rw [hP] at hqnm
    simp only [List.mem_singleton] at hqnm
    rw [hqnm] at hnq
    rw [hexcl] at hnq
    simp at hnq
  have hmain : (runPlayerAlerts rd cd ld peak squad).filter
      (fun a => a.player == some p.name) =
      [expiredAlert (overwriteContractEnd p)] := by
    unfold runPlayerAlerts
    rw [List.filter_append, hexp,
      setAllPlayerAlerts_filter_nil rd cd ld peak p.name _ hrest]
    simp
  refine ⟨hmain, rfl, ?_, ?_⟩
  · show getPlayerPriority (overwriteContractEnd p).usage = getPlayerPriority p.usage
    rw [overwrite_usage]
  · intro a ha hap
    have hmemf : a ∈ (runPlayerAlerts rd cd ld peak squad).filter
        (fun a => a.player == some p.name) :=
      List.mem_filter.mpr ⟨ha, by simp [hap]⟩
    rw [hmain] at hmemf
    simp only [List.mem_singleton] at hmemf
    rw [hmemf]
    rfl

/-- Witness for C2: a two-player squad where player "E" is on loan with the
loan already ended before the run date. -/
theorem expired_player_single_alert_witness :
    ((⟨"E", "LeftBack", some 80, true, some 200, some (-5), 0⟩ : PlayerRow) ∈
        ([⟨"E", "LeftBack", some 80, true, some 200, some (-5), 0⟩,
          ⟨"F", "RightBack", some 30, false, some 100, none, 0⟩] : List PlayerRow) ∧
      (([⟨"E", "LeftBack", some 80, true, some 200, some (-5), 0⟩,
          ⟨"F", "RightBack", some 30, false, some 100, none, 0⟩] : List PlayerRow).filter
        (fun q => q.name ==
          (⟨"E", "LeftBack", some 80, true, some 200, some (-5), 0⟩ : PlayerRow).name)).length = 1 ∧
      operativeExpiry (⟨"E", "LeftBack", some 80, true, some 200, some (-5), 0⟩ : PlayerRow) =
        some (-5) ∧
      ((-5 : ℤ) < 0)) ∧
    ((runPlayerAlerts 0 10 10 28
        [⟨"E", "LeftBack", some 80, true, some 200, some (-5), 0⟩,
          ⟨"F", "RightBack", some 30, false, some 100, none, 0⟩]).filter
          (fun a => a.player ==
            some (⟨"E", "LeftBack", some 80, true, some 200, some (-5), 0⟩ : PlayerRow).name) =
        [expiredAlert (overwriteContractEnd
          ⟨"E", "LeftBack", some 80, true, some 200, some (-5), 0⟩)] ∧
      (expiredAlert (overwriteContractEnd
        ⟨"E", "LeftBack", some 80, true, some 200, some (-5), 0⟩)).alert_type =
          .CONTRACT_OR_LOAN_EXPIRED ∧
      (expiredAlert (overwriteContractEnd
        ⟨"E", "LeftBack", some 80, true, some 200, some (-5), 0⟩)).alert_priority =
        getPlayerPriority
          (⟨"E", "LeftBack", some 80, true, some 200, some (-5), 0⟩ : PlayerRow).usage ∧
      (∀ a ∈ runPlayerAlerts 0 10 10 28
          [⟨"E", "LeftBack", some 80, true, some 200, some (-5), 0⟩,
            ⟨"F", "RightBack", some 30, false, some 100, none, 0⟩],
        a.player = some (⟨"E", "LeftBack", some 80, true, some 200, some (-5),
          0⟩ : PlayerRow).name →
        a.alert_type = .CONTRACT_OR_LOAN_EXPIRED)) :=
  ⟨⟨by decide, by decide, rfl, by decide⟩,
    expired_player_single_alert 0 10 10 28
      [⟨"E", "LeftBack", some 80, true, some 200, some (-5), 0⟩,
        ⟨"F", "RightBack", some 30, false, some 100, none, 0⟩]
      ⟨"E", "LeftBack", some 80, true, some 200, some (-5), 0⟩ (-5)
      (by decide) (by decide) rfl (by decide)⟩
